import Mathlib

/-!
Shallow embedding of the snowforge statement-builder and workflow subsystem
(Python sources under src/snowforge and src/stage.py, src/forge.py), together
with proofs about the rendered SQL and the workflow transaction behaviour.

Python values are modelled as follows: `str` as `String`, `Optional[X]` as
`Option X`, `List[X]` as `List X`, `Dict[str, str]` as `List (String × String)`
in insertion order, enums as inductive types carrying their `value` string.
Python truthiness tests (`if self.x:`) are modelled exactly: `None` and the
empty string / empty list / empty dict / zero are falsy.
-/

namespace Snowforge

/-- The character `chr(39)`, a single quote. -/
def sq : Char := Char.ofNat 39

/-- The character `chr(92)`, a backslash. -/
def bs : Char := Char.ofNat 92

/-- The character `chr(34)`, a double quote. -/
def dq : Char := Char.ofNat 34

/-- Semantics of Python `str.replace(old, new)` for a single-character
`old` pattern, on the character list of the string: every occurrence of
`old` is replaced by `new`. -/
def pyReplaceChar (old : Char) (new : List Char) : List Char → List Char
  | [] => []
  | c :: rest => (if c = old then new else [c]) ++ pyReplaceChar old new rest

/-- Python `"".join`-style separator join, the semantics of
`sep.join(parts)`. -/
def joinSep (sep : String) : List String → String
  | [] => ""
  | [a] => a
  | a :: b :: rest => a ++ sep ++ joinSep sep (b :: rest)

/-- `utilities.sql_escape_string`: three sequential `str.replace` calls
doubling, in this order, backslash (`chr(92)`), single quote (`chr(39)`)
and double quote (`chr(34)`). -/
def sql_escape_string (value : String) : String :=
  ⟨pyReplaceChar dq [dq, dq]
    (pyReplaceChar sq [sq, sq]
      (pyReplaceChar bs [bs, bs] value.data))⟩

/-- `utilities.sql_quote_string`: wraps the escaped string in single quotes. -/
def sql_quote_string (value : String) : String :=
  String.singleton sq ++ sql_escape_string value ++ String.singleton sq

/-- `utilities.sql_escape_comment`: `value.replace("'", "\\'")` — each
single quote is replaced by a backslash followed by a single quote. -/
def sql_escape_comment (value : String) : String :=
  ⟨pyReplaceChar sq [bs, sq] value.data⟩

/-- `utilities.sql_quote_comment`: wraps the comment-escaped string in
single quotes. -/
def sql_quote_comment (value : String) : String :=
  String.singleton sq ++ sql_escape_comment value ++ String.singleton sq

/-- The comment-escaping used inline by the entity renderers:
`comment.replace(chr(39), chr(39)*2)`, doubling single quotes. -/
def doubleQuotes (value : String) : String :=
  ⟨pyReplaceChar sq [sq, sq] value.data⟩

/-- Python `str(True).upper()` / `str(False).upper()`. -/
def pyBoolUpper (b : Bool) : String := if b then "TRUE" else "FALSE"

/-- Models `if self.x: parts.append(f(x))` for an `Optional[str]` field:
both `None` and the empty string are falsy. -/
def ifStr (o : Option String) (f : String → String) : List String :=
  match o with
  | none => []
  | some s => if s = "" then [] else [f s]

/-- Models `if self.b: parts.append(s)` for a `bool` field. -/
def ifTrue (b : Bool) (s : String) : List String := if b then [s] else []

/-- `table.TableType`. -/
inductive TableType
  | PERMANENT | TEMPORARY | TRANSIENT | VOLATILE
deriving DecidableEq, Repr

/-- The `value` of a `TableType` member. -/
def TableType.value : TableType → String
  | .PERMANENT => "PERMANENT"
  | .TEMPORARY => "TEMPORARY"
  | .TRANSIENT => "TRANSIENT"
  | .VOLATILE => "VOLATILE"

/-- `table.ColumnType`. -/
inductive ColumnType
  | NUMBER | STRING | BOOLEAN | DATE | TIMESTAMP | VARIANT | ARRAY | OBJECT | TEXT
deriving DecidableEq, Repr

/-- The `value` of a `ColumnType` member. -/
def ColumnType.value : ColumnType → String
  | .NUMBER => "NUMBER"
  | .STRING => "STRING"
  | .BOOLEAN => "BOOLEAN"
  | .DATE => "DATE"
  | .TIMESTAMP => "TIMESTAMP"
  | .VARIANT => "VARIANT"
  | .ARRAY => "ARRAY"
  | .OBJECT => "OBJECT"
  | .TEXT => "TEXT"

/-- `Column.data_type : Union[ColumnType, str]` — either a plain member of
the `ColumnType` enum or an already-formatted parameterized type string. -/
inductive ColumnDataType
  | base (t : ColumnType)
  | raw (s : String)
deriving DecidableEq, Repr

/-- `table.Column`. -/
structure Column where
  name : String
  data_type : ColumnDataType
  nullable : Bool := true
  default : Option String := none
  identity : Bool := false
  primary_key : Bool := false
  unique : Bool := false
  foreign_key : Option String := none
  comment : Option String := none
  collate : Option String := none
deriving DecidableEq, Repr

/-- The `parts` list built by `Column.to_sql`, in source order. -/
def Column.parts (c : Column) : List String :=
  [c.name]
  ++ [match c.data_type with
      | .base t => t.value
      | .raw s => s]
  ++ ifTrue (!c.nullable) "NOT NULL"
  ++ ifStr c.default (fun d => "DEFAULT " ++ d)
  ++ ifTrue c.identity "IDENTITY"
  ++ ifTrue c.primary_key "PRIMARY KEY"
  ++ ifTrue c.unique "UNIQUE"
  ++ ifStr c.foreign_key (fun f => "REFERENCES " ++ f)
  ++ ifStr c.comment (fun m => "COMMENT '" ++ doubleQuotes m ++ "'")
  ++ ifStr c.collate (fun l => "COLLATE '" ++ l ++ "'")

/-- `Column.to_sql`. -/
def Column.to_sql (c : Column) : String := joinSep " " c.parts

/-- `table.RowAccessPolicy`. -/
structure RowAccessPolicy where
  name : String
  «on» : List String
deriving DecidableEq, Repr

/-- `table.AggregationPolicy`. -/
structure AggregationPolicy where
  name : String
  «on» : List String
deriving DecidableEq, Repr

/-- `table.Table`. -/
structure Table where
  name : String
  columns : List Column
  table_type : TableType := .PERMANENT
  cluster_by : Option (List String) := none
  stage_file_format : Option String := none
  stage_copy_options : Option String := none
  data_retention_time_in_days : Option Int := none
  max_data_extension_time_in_days : Option Int := none
  change_tracking : Option Bool := none
  default_ddl_collation : Option String := none
  copy_grants : Bool := false
  comment : Option String := none
  row_access_policy : Option RowAccessPolicy := none
  aggregation_policy : Option AggregationPolicy := none
  tags : List (String × String) := []
  is_create_or_replace : Bool := false
  is_create_if_not_exists : Bool := false
deriving DecidableEq, Repr

/-- The `parts` list built by `Table.to_sql`, in source order. -/
def Table.parts (t : Table) : List String :=
  (if t.is_create_or_replace then ["CREATE OR REPLACE"] else ["CREATE"])
  ++ (if t.table_type = TableType.PERMANENT then [] else [t.table_type.value])
  ++ ["TABLE"]
  ++ ifTrue t.is_create_if_not_exists "IF NOT EXISTS"
  ++ [t.name]
  ++ ["(" ++ joinSep ", " (t.columns.map Column.to_sql) ++ ")"]
  ++ ifStr t.comment (fun m => "COMMENT = '" ++ doubleQuotes m ++ "'")
  ++ (match t.data_retention_time_in_days with
      | some d => ["DATA_RETENTION_TIME_IN_DAYS = " ++ toString d]
      | none => [])
  ++ (match t.max_data_extension_time_in_days with
      | some d => ["MAX_DATA_EXTENSION_TIME_IN_DAYS = " ++ toString d]
      | none => [])
  ++ (match t.change_tracking with
      | some b => ["CHANGE_TRACKING = " ++ pyBoolUpper b]
      | none => [])
  ++ ifStr t.default_ddl_collation (fun l => "DEFAULT_DDL_COLLATION = '" ++ l ++ "'")
  ++ ifTrue t.copy_grants "COPY GRANTS"
  ++ (match t.cluster_by with
      | some l => if l = [] then [] else ["CLUSTER BY (" ++ joinSep ", " l ++ ")"]
      | none => [])
  ++ (match t.row_access_policy with
      | some p =>
          ["WITH ROW ACCESS POLICY " ++ p.name ++ " ON (" ++ joinSep ", " p.«on» ++ ")"]
      | none => [])
  ++ (match t.aggregation_policy with
      | some p =>
          ["WITH AGGREGATION POLICY " ++ p.name ++ " ON (" ++ joinSep ", " p.«on» ++ ")"]
      | none => [])
  ++ (if t.tags = [] then []
      else ["WITH " ++
        joinSep " " (t.tags.map fun kv => "TAG (" ++ kv.1 ++ " = '" ++ kv.2 ++ "')")])

/-- `Table.to_sql`. -/
def Table.to_sql (t : Table) : String := joinSep " " t.parts

/-- `stream.StreamMode`. -/
inductive StreamMode
  | APPEND_ONLY | INSERT_ONLY | DEFAULT
deriving DecidableEq, Repr

/-- `stream.StreamType`. -/
inductive StreamType
  | STANDARD | DELTA
deriving DecidableEq, Repr

/-- `stream.Stream`. -/
structure Stream where
  name : String
  source : String
  mode : Option StreamMode := none
  type : Option StreamType := none
  insert_only : Bool := false
  show_initial_rows : Bool := false
  append_only : Bool := false
  comment : Option String := none
  tags : List (String × String) := []
  is_create_or_replace : Bool := false
  is_create_if_not_exists : Bool := false
deriving DecidableEq, Repr

/-- The `parts` list built by `Stream.to_sql`, in source order. -/
def Stream.parts (s : Stream) : List String :=
  (if s.is_create_or_replace then ["CREATE OR REPLACE"] else ["CREATE"])
  ++ ["STREAM"]
  ++ ifTrue s.is_create_if_not_exists "IF NOT EXISTS"
  ++ [s.name]
  ++ (if s.tags = [] then []
      else ["WITH TAG (" ++
        joinSep ", " (s.tags.map fun kv => kv.1 ++ " = '" ++ kv.2 ++ "'") ++ ")"])
  ++ ["ON TABLE " ++ s.source]
  ++ ifTrue s.append_only "APPEND_ONLY = TRUE"
  ++ ifTrue s.show_initial_rows "SHOW_INITIAL_ROWS = TRUE"
  ++ ifStr s.comment (fun m => "COMMENT = '" ++ doubleQuotes m ++ "'")

/-- `Stream.to_sql`. -/
def Stream.to_sql (s : Stream) : String := joinSep " " s.parts

/-- `task.TaskType`. -/
inductive TaskType
  | SQL | STORED_PROCEDURE | MULTI_STATEMENT | PROCEDURAL_LOGIC
deriving DecidableEq, Repr

/-- `task.WarehouseSize`. -/
inductive WarehouseSize
  | XSMALL | SMALL | MEDIUM | LARGE | XLARGE | XXLARGE | XXXLARGE
  | X4LARGE | X5LARGE | X6LARGE
deriving DecidableEq, Repr

/-- The `value` of a `WarehouseSize` member. -/
def WarehouseSize.value : WarehouseSize → String
  | .XSMALL => "XSMALL"
  | .SMALL => "SMALL"
  | .MEDIUM => "MEDIUM"
  | .LARGE => "LARGE"
  | .XLARGE => "XLARGE"
  | .XXLARGE => "XXLARGE"
  | .XXXLARGE => "XXXLARGE"
  | .X4LARGE => "X4LARGE"
  | .X5LARGE => "X5LARGE"
  | .X6LARGE => "X6LARGE"

/-- `task.Schedule`. -/
structure Schedule where
  cron_expr : Option String := none
  timezone : Option String := none
  interval_minutes : Option Int := none
deriving DecidableEq, Repr

/-- `Schedule.to_sql`: an interval if set, else a cron expression when
both cron fields are truthy, else the empty string. -/
def Schedule.to_sql (s : Schedule) : String :=
  match s.interval_minutes with
  | some n => "'" ++ toString n ++ " MINUTE'"
  | none =>
    match s.cron_expr, s.timezone with
    | some c, some tz =>
        if c = "" ∨ tz = "" then ""
        else "'USING CRON " ++ c ++ " " ++ tz.trim ++ "'"
    | _, _ => ""

/-- `task.Task`. -/
structure Task where
  name : String
  task_type : TaskType
  sql_statement : String
  tags : List (String × String) := []
  warehouse : Option String := none
  warehouse_size : Option WarehouseSize := none
  schedule : Option Schedule := none
  config : Option String := none
  allow_overlapping_execution : Option Bool := none
  session_parameters : List (String × String) := []
  user_task_timeout_ms : Option Int := none
  suspend_task_after_num_failures : Option Int := none
  error_integration : Option String := none
  comment : Option String := none
  finalize : Option String := none
  task_auto_retry_attempts : Option Int := none
  user_task_minimum_trigger_interval_in_seconds : Option Int := none
  after : Option (List String) := none
  «when» : Option String := none
  is_create_or_replace : Bool := false
  is_create_if_not_exists : Bool := false
deriving DecidableEq, Repr

/-- The `parts` list built by `Task.to_sql`, in source order. Unlike the
other entities, `IF NOT EXISTS` is emitted only in the `CREATE` branch. -/
def Task.parts (t : Task) : List String :=
  (if t.is_create_or_replace then ["CREATE OR REPLACE"]
   else "CREATE" :: ifTrue t.is_create_if_not_exists "IF NOT EXISTS")
  ++ ["TASK " ++ t.name]
  ++ (if t.tags = [] then []
      else ["WITH TAG (" ++
        joinSep ", " (t.tags.map fun kv => kv.1 ++ " = '" ++ kv.2 ++ "'") ++ ")"])
  ++ ifStr t.warehouse (fun w => "WAREHOUSE = " ++ w)
  ++ (match t.warehouse_size with
      | some s => ["USER_TASK_MANAGED_INITIAL_WAREHOUSE_SIZE = " ++ s.value]
      | none => [])
  ++ (match t.schedule with
      | some s => if s.to_sql = "" then [] else ["SCHEDULE = " ++ s.to_sql]
      | none => [])
  ++ ifStr t.config (fun c => "CONFIG = '" ++ c ++ "'")
  ++ (match t.allow_overlapping_execution with
      | some b => ["ALLOW_OVERLAPPING_EXECUTION = " ++ pyBoolUpper b]
      | none => [])
  ++ (if t.session_parameters = [] then []
      else ["SESSION_PARAMETERS = (" ++
        joinSep ", " (t.session_parameters.map fun kv =>
          kv.1 ++ " = '" ++ kv.2 ++ "'") ++ ")"])
  ++ (match t.user_task_timeout_ms with
      | some n => ["USER_TASK_TIMEOUT_MS = " ++ toString n]
      | none => [])
  ++ (match t.suspend_task_after_num_failures with
      | some n => ["SUSPEND_TASK_AFTER_NUM_FAILURES = " ++ toString n]
      | none => [])
  ++ ifStr t.error_integration (fun e => "ERROR_INTEGRATION = " ++ e)
  ++ ifStr t.comment (fun m => "COMMENT = '" ++ doubleQuotes m ++ "'")
  ++ ifStr t.finalize (fun f => "FINALIZE = '" ++ f ++ "'")
  ++ (match t.task_auto_retry_attempts with
      | some n => ["TASK_AUTO_RETRY_ATTEMPTS = " ++ toString n]
      | none => [])
  ++ (match t.user_task_minimum_trigger_interval_in_seconds with
      | some n => ["USER_TASK_MINIMUM_TRIGGER_INTERVAL_IN_SECONDS = " ++ toString n]
      | none => [])
  ++ (match t.after with
      | some l => if l = [] then [] else ["AFTER " ++ joinSep ", " l]
      | none => [])
  ++ ifStr t.«when» (fun w => "WHEN " ++ w)
  ++ ["AS"]
  ++ [t.sql_statement.trim]

/-- `Task.to_sql`: parts joined with newlines. -/
def Task.to_sql (t : Task) : String := joinSep "\n" t.parts

/-- Renders a `Dict[str, str]` as space-joined `k = 'v'` fragments, the
shape used by encryption/credential maps in `stage.py`. -/
def kvSpace (l : List (String × String)) : String :=
  joinSep " " (l.map fun kv => kv.1 ++ " = '" ++ kv.2 ++ "'")

/-- Models `if self.x: parts.append(f(x))` for an `Optional[Dict[str, str]]`
field: `None` and the empty dict are falsy. -/
def ifDict (o : Option (List (String × String))) (f : List (String × String) → String) :
    List String :=
  match o with
  | none => []
  | some l => if l = [] then [] else [f l]

/-- `stage.InternalStageParams`. -/
structure InternalStageParams where
  url : Option String := none
  encryption : Option (List (String × String)) := none
deriving DecidableEq, Repr

/-- `InternalStageParams.to_sql`. -/
def InternalStageParams.to_sql (p : InternalStageParams) : String :=
  joinSep " " (ifStr p.url (fun u => "URL = '" ++ u ++ "'")
    ++ ifDict p.encryption (fun e => "ENCRYPTION = (" ++ kvSpace e ++ ")"))

/-- `stage.S3ExternalStageParams`. -/
structure S3ExternalStageParams where
  url : String
  storage_integration : Option String := none
  credentials : Option (List (String × String)) := none
  encryption : Option (List (String × String)) := none
deriving DecidableEq, Repr

/-- `S3ExternalStageParams.to_sql`. -/
def S3ExternalStageParams.to_sql (p : S3ExternalStageParams) : String :=
  joinSep " " (["URL = '" ++ p.url ++ "'"]
    ++ ifStr p.storage_integration (fun s => "STORAGE_INTEGRATION = " ++ s)
    ++ ifDict p.credentials (fun c => "CREDENTIALS = (" ++ kvSpace c ++ ")")
    ++ ifDict p.encryption (fun e => "ENCRYPTION = (" ++ kvSpace e ++ ")"))

/-- `stage.GCSExternalStageParams`. -/
structure GCSExternalStageParams where
  url : String
  storage_integration : String
  encryption : Option (List (String × String)) := none
deriving DecidableEq, Repr

/-- `GCSExternalStageParams.to_sql`. -/
def GCSExternalStageParams.to_sql (p : GCSExternalStageParams) : String :=
  joinSep " " (["URL = '" ++ p.url ++ "'",
      "STORAGE_INTEGRATION = " ++ p.storage_integration]
    ++ ifDict p.encryption (fun e => "ENCRYPTION = (" ++ kvSpace e ++ ")"))

/-- `stage.AzureExternalStageParams`. -/
structure AzureExternalStageParams where
  url : String
  storage_integration : String
  encryption : Option (List (String × String)) := none
deriving DecidableEq, Repr

/-- `AzureExternalStageParams.to_sql`. -/
def AzureExternalStageParams.to_sql (p : AzureExternalStageParams) : String :=
  joinSep " " (["URL = '" ++ p.url ++ "'",
      "STORAGE_INTEGRATION = " ++ p.storage_integration]
    ++ ifDict p.encryption (fun e => "ENCRYPTION = (" ++ kvSpace e ++ ")"))

/-- `stage.S3CompatibleExternalStageParams`. -/
structure S3CompatibleExternalStageParams where
  url : String
  storage_integration : String
  endpoint : String
  encryption : Option (List (String × String)) := none
deriving DecidableEq, Repr

/-- `S3CompatibleExternalStageParams.to_sql`. -/
def S3CompatibleExternalStageParams.to_sql (p : S3CompatibleExternalStageParams) :
    String :=
  joinSep " " (["URL = '" ++ p.url ++ "'",
      "STORAGE_INTEGRATION = " ++ p.storage_integration,
      "ENDPOINT = '" ++ p.endpoint ++ "'"]
    ++ ifDict p.encryption (fun e => "ENCRYPTION = (" ++ kvSpace e ++ ")"))

/-- The union of stage-parameter variants accepted by `Stage`. -/
inductive StageParams
  | internal (p : InternalStageParams)
  | s3 (p : S3ExternalStageParams)
  | gcs (p : GCSExternalStageParams)
  | azure (p : AzureExternalStageParams)
  | s3compat (p : S3CompatibleExternalStageParams)
deriving DecidableEq, Repr

/-- Dynamic dispatch of `to_sql` over the stage-parameter union. -/
def StageParams.to_sql : StageParams → String
  | .internal p => p.to_sql
  | .s3 p => p.to_sql
  | .gcs p => p.to_sql
  | .azure p => p.to_sql
  | .s3compat p => p.to_sql

/-- `stage.InternalDirectoryTableParams` (the base fields only). -/
structure InternalDirectoryTableParams where
  enable : Bool := true
  refresh_on_create : Bool := true
deriving DecidableEq, Repr

/-- `InternalDirectoryTableParams.to_sql` (inherited from the base class). -/
def InternalDirectoryTableParams.to_sql (p : InternalDirectoryTableParams) : String :=
  "DIRECTORY = (" ++ joinSep " " (ifTrue p.enable "ENABLE = true"
    ++ ifTrue p.refresh_on_create "REFRESH_ON_CREATE = true") ++ ")"

/-- `stage.S3DirectoryTableParams`. -/
structure S3DirectoryTableParams where
  enable : Bool := true
  refresh_on_create : Bool := true
  aws_sns_topic : Option String := none
  aws_role : Option String := none
  notification_integration : Option String := none
deriving DecidableEq, Repr

/-- `S3DirectoryTableParams.to_sql`. -/
def S3DirectoryTableParams.to_sql (p : S3DirectoryTableParams) : String :=
  "DIRECTORY = (" ++ joinSep " " (ifTrue p.enable "ENABLE = true"
    ++ ifTrue p.refresh_on_create "REFRESH_ON_CREATE = true"
    ++ ifStr p.aws_sns_topic (fun t => "AWS_SNS_TOPIC = '" ++ t ++ "'")
    ++ ifStr p.aws_role (fun r => "AWS_ROLE = '" ++ r ++ "'")
    ++ ifStr p.notification_integration
        (fun n => "NOTIFICATION_INTEGRATION = " ++ n)) ++ ")"

/-- `stage.GCSDirectoryTableParams`. -/
structure GCSDirectoryTableParams where
  enable : Bool := true
  refresh_on_create : Bool := true
  notification_integration : Option String := none
deriving DecidableEq, Repr

/-- `GCSDirectoryTableParams.to_sql`. -/
def GCSDirectoryTableParams.to_sql (p : GCSDirectoryTableParams) : String :=
  "DIRECTORY = (" ++ joinSep " " (ifTrue p.enable "ENABLE = true"
    ++ ifTrue p.refresh_on_create "REFRESH_ON_CREATE = true"
    ++ ifStr p.notification_integration
        (fun n => "NOTIFICATION_INTEGRATION = " ++ n)) ++ ")"

/-- `stage.AzureDirectoryTableParams`. -/
structure AzureDirectoryTableParams where
  enable : Bool := true
  refresh_on_create : Bool := true
  notification_integration : Option String := none
deriving DecidableEq, Repr

/-- `AzureDirectoryTableParams.to_sql`. -/
def AzureDirectoryTableParams.to_sql (p : AzureDirectoryTableParams) : String :=
  "DIRECTORY = (" ++ joinSep " " (ifTrue p.enable "ENABLE = true"
    ++ ifTrue p.refresh_on_create "REFRESH_ON_CREATE = true"
    ++ ifStr p.notification_integration
        (fun n => "NOTIFICATION_INTEGRATION = " ++ n)) ++ ")"

/-- The union of directory-table-parameter variants accepted by `Stage`. -/
inductive DirectoryTableParams
  | internal (p : InternalDirectoryTableParams)
  | s3 (p : S3DirectoryTableParams)
  | gcs (p : GCSDirectoryTableParams)
  | azure (p : AzureDirectoryTableParams)
deriving DecidableEq, Repr

/-- Dynamic dispatch of `to_sql` over the directory-table union. -/
def DirectoryTableParams.to_sql : DirectoryTableParams → String
  | .internal p => p.to_sql
  | .s3 p => p.to_sql
  | .gcs p => p.to_sql
  | .azure p => p.to_sql

/-- `file_format.FileFormatOptions`, modelled at its abstract-interface
boundary: the ABC declares exactly one abstract method, `to_sql`. The six
concrete option families (CSV, JSON, Avro, ORC, Parquet, XML) each render
to such a clause string; no claim depends on a specific family, so an
options object is represented by the `to_sql` rendering it exposes. -/
structure FileFormatOptions where
  to_sql : String
deriving DecidableEq, Repr

/-- `file_format.FileFormat`. -/
structure FileFormat where
  name : String
  options : Option FileFormatOptions := none
  sql_statement : String := ""
deriving DecidableEq, Repr

/-- `file_format.FileFormatBuilder` state. -/
structure FileFormatBuilder where
  _name : String
  _temporary : Bool := false
  _volatile : Bool := false
  _options : Option FileFormatOptions := none
  _create_or_replace : Bool := false
  _create_if_not_exists : Bool := false
  _comment : Option String := none
deriving DecidableEq, Repr

/-- The `parts` list built by `FileFormatBuilder._to_sql`, in source order. -/
def FileFormatBuilder.parts (b : FileFormatBuilder) : List String :=
  (if b._create_or_replace then ["CREATE OR REPLACE"] else ["CREATE"])
  ++ (if b._temporary then ["TEMPORARY"]
      else if b._volatile then ["VOLATILE"] else [])
  ++ ["FILE FORMAT"]
  ++ ifTrue b._create_if_not_exists "IF NOT EXISTS"
  ++ [b._name]
  ++ (match b._options with
      | some o => [o.to_sql]
      | none => [])
  ++ ifStr b._comment (fun m => "COMMENT = '" ++ doubleQuotes m ++ "'")

/-- `FileFormatBuilder._to_sql`. -/
def FileFormatBuilder.to_sql (b : FileFormatBuilder) : String := joinSep " " b.parts

/-- `FileFormatBuilder.build`: captures the statement text at build time. -/
def FileFormatBuilder.build (b : FileFormatBuilder) : FileFormat :=
  { name := b._name, options := b._options, sql_statement := b.to_sql }

/-- `file_format.FileFormatSpecification`: a named reference or an inline
`FileFormat`. -/
inductive FileFormatSpecification
  | named (name : String)
  | inline (ff : FileFormat)
deriving DecidableEq, Repr

/-- `FileFormatSpecification.to_sql`. -/
def FileFormatSpecification.to_sql : FileFormatSpecification → String
  | .named n => "FORMAT_NAME = '" ++ n ++ "'"
  | .inline ff =>
    match ff.options with
    | some o => o.to_sql
    | none => ""

/-- `stage.Stage`. -/
structure Stage where
  name : String
  stage_params : Option StageParams := none
  directory_table_params : Option DirectoryTableParams := none
  file_format : Option FileFormatSpecification := none
  comment : Option String := none
  tags : List (String × String) := []
  is_create_or_replace : Bool := false
  is_create_if_not_exists : Bool := false
  is_temporary : Bool := false
deriving DecidableEq, Repr

/-- The `parts` list built by `Stage.to_sql`, in source order. -/
def Stage.parts (s : Stage) : List String :=
  (if s.is_create_or_replace then ["CREATE OR REPLACE"] else ["CREATE"])
  ++ ifTrue s.is_temporary "TEMPORARY"
  ++ ["STAGE"]
  ++ ifTrue s.is_create_if_not_exists "IF NOT EXISTS"
  ++ [s.name]
  ++ (match s.stage_params with
      | some p => [p.to_sql]
      | none => [])
  ++ (match s.directory_table_params with
      | some p => [p.to_sql]
      | none => [])
  ++ (match s.file_format with
      | some f => ["FILE_FORMAT = (" ++ f.to_sql ++ ")"]
      | none => [])
  ++ ifStr s.comment (fun m => "COMMENT = '" ++ doubleQuotes m ++ "'")
  ++ (if s.tags = [] then [] else ["TAGS = (" ++ kvSpace s.tags ++ ")"])

/-- `Stage.to_sql`. -/
def Stage.to_sql (s : Stage) : String := joinSep " " s.parts

/-- `copy_into.OnError`. -/
inductive OnError
  | CONTINUE | SKIP_FILE | ABORT_STATEMENT
deriving DecidableEq, Repr

/-- The `value` of an `OnError` member. -/
def OnError.value : OnError → String
  | .CONTINUE => "CONTINUE"
  | .SKIP_FILE => "SKIP_FILE"
  | .ABORT_STATEMENT => "ABORT_STATEMENT"

/-- `copy_into.MatchByColumnName`. -/
inductive MatchByColumnName
  | CASE_SENSITIVE | CASE_INSENSITIVE | NONE
deriving DecidableEq, Repr

/-- The `value` of a `MatchByColumnName` member. -/
def MatchByColumnName.value : MatchByColumnName → String
  | .CASE_SENSITIVE => "CASE_SENSITIVE"
  | .CASE_INSENSITIVE => "CASE_INSENSITIVE"
  | .NONE => "NONE"

/-- `copy_into.ValidationMode`. -/
inductive ValidationMode
  | RETURN_ERRORS | RETURN_ALL_ERRORS
deriving DecidableEq, Repr

/-- The `value` of a `ValidationMode` member. -/
def ValidationMode.value : ValidationMode → String
  | .RETURN_ERRORS => "RETURN_ERRORS"
  | .RETURN_ALL_ERRORS => "RETURN_ALL_ERRORS"

/-- The `Literal["table", "stage"]` tag shared by `CopyIntoTarget` and
`CopyIntoSource`. -/
inductive CopyKind
  | table | stage
deriving DecidableEq, Repr

/-- `copy_into.CopyIntoTarget`. -/
structure CopyIntoTarget where
  name : String
  target_type : CopyKind
deriving DecidableEq, Repr

/-- The `CopyIntoTarget.table` classmethod. -/
def CopyIntoTarget.table (name : String) : CopyIntoTarget := ⟨name, .table⟩

/-- The `CopyIntoTarget.stage` classmethod. -/
def CopyIntoTarget.stage (name : String) : CopyIntoTarget := ⟨name, .stage⟩

/-- `CopyIntoTarget.to_sql`: returns the bare name for both target types. -/
def CopyIntoTarget.to_sql (t : CopyIntoTarget) : String := t.name

/-- `copy_into.CopyIntoSource`. -/
structure CopyIntoSource where
  name : String
  source_type : CopyKind
deriving DecidableEq, Repr

/-- The `CopyIntoSource.table` classmethod. -/
def CopyIntoSource.table (name : String) : CopyIntoSource := ⟨name, .table⟩

/-- The `CopyIntoSource.stage` classmethod. -/
def CopyIntoSource.stage (name : String) : CopyIntoSource := ⟨name, .stage⟩

/-- `CopyIntoSource.to_sql`: prepends `@` for a stage source, bare name
for a table source. -/
def CopyIntoSource.to_sql (s : CopyIntoSource) : String :=
  if s.source_type = .stage then "@" ++ s.name else s.name

/-- Python `str(dict)` for a `Dict[str, str]` of plain entries, as used by
the `INCLUDE_METADATA = ({self.include_metadata})` interpolation. -/
def pyDictRepr (l : List (String × String)) : String :=
  "\x7b" ++ joinSep ", " (l.map fun kv => "'" ++ kv.1 ++ "': '" ++ kv.2 ++ "'")
    ++ "\x7d"

/-- `copy_into.CopyIntoOptions`. -/
structure CopyIntoOptions where
  enforce_length : Bool := false
  file_processor : Option String := none
  force : Bool := false
  include_metadata : Option (List (String × String)) := none
  load_uncertain_files : Bool := false
  match_by_column_name : Option MatchByColumnName := none
  on_error : Option OnError := none
  purge : Bool := false
  return_failed_only : Bool := false
  size_limit : Option Int := none
  truncate_columns : Bool := false
deriving DecidableEq, Repr

/-- The `parts` list built by `CopyIntoOptions.to_sql`, in source order.
`if self.size_limit:` treats a zero limit as falsy. -/
def CopyIntoOptions.parts (o : CopyIntoOptions) : List String :=
  ifTrue o.return_failed_only "RETURN_FAILED_ONLY = TRUE"
  ++ (match o.on_error with
      | some e => ["ON_ERROR = " ++ e.value]
      | none => [])
  ++ (match o.size_limit with
      | some n => if n = 0 then [] else ["SIZE_LIMIT = " ++ toString n]
      | none => [])
  ++ ifTrue o.purge "PURGE = TRUE"
  ++ (match o.match_by_column_name with
      | some m => ["MATCH_BY_COLUMN_NAME = " ++ m.value]
      | none => [])
  ++ ifTrue o.enforce_length "ENFORCE_LENGTH = TRUE"
  ++ ifTrue o.truncate_columns "TRUNCATECOLUMNS = TRUE"
  ++ ifTrue o.force "FORCE = TRUE"
  ++ ifTrue o.load_uncertain_files "LOAD_UNCERTAIN_FILES = TRUE"
  ++ ifStr o.file_processor (fun p => "FILE_PROCESSOR = (" ++ p ++ ")")
  ++ ifDict o.include_metadata
      (fun m => "INCLUDE_METADATA = (" ++ pyDictRepr m ++ ")")

/-- `CopyIntoOptions.to_sql`. -/
def CopyIntoOptions.to_sql (o : CopyIntoOptions) : String := joinSep " " o.parts

/-- `copy_into.CopyIntoOptionsBuilder` state (`__init__` defaults). -/
structure CopyIntoOptionsBuilder where
  return_failed_only : Bool := false
  on_error : Option OnError := none
  size_limit : Option Int := none
  purge : Bool := false
  match_by_column_name : Option MatchByColumnName := none
  enforce_length : Bool := false
  truncate_columns : Bool := false
  force : Bool := false
  load_uncertain_files : Bool := false
  file_processor : Option String := none
  include_metadata : Option (List (String × String)) := none
deriving DecidableEq, Repr

/-- `with_return_failed_only`. -/
def CopyIntoOptionsBuilder.with_return_failed_only
    (b : CopyIntoOptionsBuilder) (v : Bool) : CopyIntoOptionsBuilder :=
  { b with return_failed_only := v }

/-- `with_on_error`. -/
def CopyIntoOptionsBuilder.with_on_error
    (b : CopyIntoOptionsBuilder) (v : OnError) : CopyIntoOptionsBuilder :=
  { b with on_error := some v }

/-- `with_size_limit`. -/
def CopyIntoOptionsBuilder.with_size_limit
    (b : CopyIntoOptionsBuilder) (v : Int) : CopyIntoOptionsBuilder :=
  { b with size_limit := some v }

/-- `with_purge`. -/
def CopyIntoOptionsBuilder.with_purge
    (b : CopyIntoOptionsBuilder) (v : Bool) : CopyIntoOptionsBuilder :=
  { b with purge := v }

/-- `with_match_by_column_name`. -/
def CopyIntoOptionsBuilder.with_match_by_column_name
    (b : CopyIntoOptionsBuilder) (v : MatchByColumnName) : CopyIntoOptionsBuilder :=
  { b with match_by_column_name := some v }

/-- `with_enforce_length`. -/
def CopyIntoOptionsBuilder.with_enforce_length
    (b : CopyIntoOptionsBuilder) (v : Bool) : CopyIntoOptionsBuilder :=
  { b with enforce_length := v }

/-- `with_truncate_columns`. -/
def CopyIntoOptionsBuilder.with_truncate_columns
    (b : CopyIntoOptionsBuilder) (v : Bool) : CopyIntoOptionsBuilder :=
  { b with truncate_columns := v }

/-- `with_force`. -/
def CopyIntoOptionsBuilder.with_force
    (b : CopyIntoOptionsBuilder) (v : Bool) : CopyIntoOptionsBuilder :=
  { b with force := v }

/-- `with_load_uncertain_files`. -/
def CopyIntoOptionsBuilder.with_load_uncertain_files
    (b : CopyIntoOptionsBuilder) (v : Bool) : CopyIntoOptionsBuilder :=
  { b with load_uncertain_files := v }

/-- `with_file_processor`. -/
def CopyIntoOptionsBuilder.with_file_processor
    (b : CopyIntoOptionsBuilder) (v : String) : CopyIntoOptionsBuilder :=
  { b with file_processor := some v }

/-- `with_include_metadata`. -/
def CopyIntoOptionsBuilder.with_include_metadata
    (b : CopyIntoOptionsBuilder) (v : List (String × String)) :
    CopyIntoOptionsBuilder :=
  { b with include_metadata := some v }

/-- `CopyIntoOptionsBuilder.build`: constructs `CopyIntoOptions` passing
only eight of the builder's eleven fields; `load_uncertain_files`,
`file_processor` and `include_metadata` are not passed and keep the
dataclass defaults. -/
def CopyIntoOptionsBuilder.build (b : CopyIntoOptionsBuilder) : CopyIntoOptions :=
  { return_failed_only := b.return_failed_only
    on_error := b.on_error
    size_limit := b.size_limit
    purge := b.purge
    match_by_column_name := b.match_by_column_name
    enforce_length := b.enforce_length
    truncate_columns := b.truncate_columns
    force := b.force }

/-- `copy_into.CopyInto`. -/
structure CopyInto where
  target : CopyIntoTarget
  source : CopyIntoSource
  options : CopyIntoOptions := {}
  pattern : Option String := none
  file_format : Option FileFormatSpecification := none
  files : Option (List String) := none
  validation_mode : Option ValidationMode := none
deriving DecidableEq, Repr

/-- The `parts` list built by `CopyInto.to_sql`, in source order. -/
def CopyInto.parts (c : CopyInto) : List String :=
  ["COPY INTO", c.target.to_sql, "FROM", c.source.to_sql]
  ++ ifStr c.pattern (fun p => "PATTERN = '" ++ p ++ "'")
  ++ (match c.file_format with
      | some f => ["FILE_FORMAT = (" ++ f.to_sql ++ ")"]
      | none => [])
  ++ (match c.files with
      | some fs =>
          if fs = [] then []
          else ["FILES = (" ++ joinSep ", " (fs.map fun f => "'" ++ f ++ "'") ++ ")"]
      | none => [])
  ++ (match c.validation_mode with
      | some v => ["VALIDATION_MODE = " ++ v.value]
      | none => [])
  ++ (if c.options.to_sql = "" then [] else [c.options.to_sql])

/-- `CopyInto.to_sql`. -/
def CopyInto.to_sql (c : CopyInto) : String := joinSep " " c.parts

/-- `file_format.CompressionType`. -/
inductive CompressionType
  | AUTO | NONE | GZIP | BROTLI | ZSTD | DEFLATE | RAW_DEFLATE | BZ2 | LZO | SNAPPY
deriving DecidableEq, Repr

/-- The `value` of a `CompressionType` member (also its `__str__`). -/
def CompressionType.value : CompressionType → String
  | .AUTO => "AUTO"
  | .NONE => "NONE"
  | .GZIP => "GZIP"
  | .BROTLI => "BROTLI"
  | .ZSTD => "ZSTD"
  | .DEFLATE => "DEFLATE"
  | .RAW_DEFLATE => "RAWDEFLATE"
  | .BZ2 => "BZ2"
  | .LZO => "LZO"
  | .SNAPPY => "SNAPPY"

/-- `put.InternalStage`: the three classmethod constructors `table`,
`user`, `named`, distinguished by the `stage_type` tag. -/
inductive InternalStage
  | table (name : String)
  | user (name : String)
  | named (name : String)
deriving DecidableEq, Repr

/-- `InternalStage.__str__`: `@%name` for a table stage, `@~/name` for a
user stage, `@name` otherwise. -/
def InternalStage.toStr : InternalStage → String
  | .table n => "@%" ++ n
  | .user n => "@~/" ++ n
  | .named n => "@" ++ n

/-- `put.Put`. `file_path` holds the string form of the Python `Path`. -/
structure Put where
  file_path : String
  stage : InternalStage
  parallel : Option Int := none
  auto_compress : Bool := true
  source_compression : CompressionType := .AUTO
  overwrite : Bool := false
deriving DecidableEq, Repr

/-- The `parts` list built by `Put.to_sql`, in source order. -/
def Put.parts (p : Put) : List String :=
  ["PUT"]
  ++ ["'file://" ++ p.file_path ++ "'"]
  ++ [p.stage.toStr]
  ++ (match p.parallel with
      | some n => ["PARALLEL = " ++ toString n]
      | none => [])
  ++ ifTrue p.auto_compress "AUTO_COMPRESS = TRUE"
  ++ ["SOURCE_COMPRESSION = " ++ p.source_compression.value]
  ++ ifTrue p.overwrite "OVERWRITE = TRUE"

/-- `Put.to_sql`. -/
def Put.to_sql (p : Put) : String := joinSep " " p.parts

/-- A command sent over the Snowflake connection by `forge.py`: the
transaction-control statements issued by `Forge.transaction`
(`cursor.execute("BEGIN")` / `"COMMIT"` / `"ROLLBACK"`) and ordinary SQL
statements issued by `Forge.execute_sql`. -/
inductive SqlCmd
  | BEGIN
  | COMMIT
  | ROLLBACK
  | stmt (sql : String)
deriving DecidableEq, Repr

/-- The state of the single shared Snowflake connection: the statements
the warehouse has durably committed, the statements pending in the open
transaction, whether a transaction is open, and the log of every command
sent over the connection in order. -/
structure Session where
  committed : List String := []
  pending : List String := []
  in_txn : Bool := false
  sent : List SqlCmd := []
deriving DecidableEq, Repr

/-- Log a command as sent without any data effect (a statement the
warehouse rejected is still a command that was sent). -/
def Session.send (st : Session) (c : SqlCmd) : Session :=
  { st with sent := st.sent ++ [c] }

/-- Send a command and apply Snowflake's transaction semantics. Snowflake
supports a single flat transaction per session — transactions do not
nest: a `BEGIN` issued while a transaction is already open is ignored, a
`COMMIT` durably commits everything pending in the one open transaction
and closes it, a `ROLLBACK` discards the pending statements and closes
it, and a statement executed with no open transaction is auto-committed. -/
def Session.issue (st : Session) (c : SqlCmd) : Session :=
  let st := st.send c
  match c with
  | .BEGIN => if st.in_txn then st else { st with in_txn := true, pending := [] }
  | .COMMIT =>
      { st with committed := st.committed ++ st.pending, pending := [],
                in_txn := false }
  | .ROLLBACK => { st with pending := [], in_txn := false }
  | .stmt s =>
      if st.in_txn then { st with pending := st.pending ++ [s] }
      else { st with committed := st.committed ++ [s] }

/-- `Forge.transaction` (forge.py lines 244–260), as a combinator over the
body run inside the `with` block: issue `BEGIN`, run the body, issue
`COMMIT` on success; on an exception issue `ROLLBACK` and re-raise the
original error (`Option String` carries the propagating error). -/
def forgeTransaction (body : Session → Session × Option String) (st : Session) :
    Session × Option String :=
  let st1 := st.issue .BEGIN
  match body st1 with
  | (st2, none) => (st2.issue .COMMIT, none)
  | (st2, some e) => (st2.issue .ROLLBACK, some e)

/-- `Forge.execute_sql`: runs one statement inside its own
`Forge.transaction`. `fails` tells which statements the warehouse
rejects; a rejected statement raises before taking effect, and the error
is re-raised after the transaction context rolls back. -/
def forgeExecuteSql (fails : String → Bool) (sql : String) (st : Session) :
    Session × Option String :=
  forgeTransaction (fun s =>
    if fails sql then (s.send (.stmt sql), some sql)
    else (s.issue (.stmt sql), none)) st

/-- The loop body of `WorkflowBuilder.execute`: each queued step resolves
to a `Forge` method that renders the entity and calls
`Forge.execute_sql` on the rendered SQL; steps run in insertion order
and the first failure aborts the loop with its error. -/
def runSteps (fails : String → Bool) : List String → Session → Session × Option String
  | [], st => (st, none)
  | sql :: rest, st =>
    match forgeExecuteSql fails sql st with
    | (st', none) => runSteps fails rest st'
    | (st', some e) => (st', some e)

/-- `WorkflowBuilder.execute` (forge.py lines 373–379): replays the
queued steps inside one `Forge.transaction`, each step's rendered SQL
going through `Forge.execute_sql`. -/
def workflowExecute (fails : String → Bool) (steps : List String) (st : Session) :
    Session × Option String :=
  forgeTransaction (runSteps fails steps) st

/-- The Table of the C4 end-to-end scenario: a NOT-NULL identity NUMBER
column `id`, a nullable STRING column `email`, transient kind, comment
`"c"`. -/
def c4_customers : Table :=
  { name := "customers"
    columns :=
      [{ name := "id", data_type := .base .NUMBER, nullable := false,
         identity := true },
       { name := "email", data_type := .base .STRING }]
    table_type := .TRANSIENT
    comment := some "c" }

/-- A Table with both create-mode flags set, for the C2 scenario. -/
def c2_table : Table :=
  { name := "t"
    columns := [{ name := "c", data_type := .base .NUMBER }]
    is_create_or_replace := true
    is_create_if_not_exists := true }

/-- The CopyInto of the C8 scenario: options with on-error SKIP_FILE and
purge set. -/
def c8_copy : CopyInto :=
  { target := CopyIntoTarget.table "my_table"
    source := CopyIntoSource.stage "my_stage"
    options := { on_error := some .SKIP_FILE, purge := true } }

/-- One setter call on `CopyIntoOptionsBuilder`, as a first-class value:
each constructor is one of the builder's eleven `with_*` methods together
with its argument. -/
inductive OptSetter
  | return_failed_only (v : Bool)
  | on_error (v : OnError)
  | size_limit (v : Int)
  | purge (v : Bool)
  | match_by_column_name (v : MatchByColumnName)
  | enforce_length (v : Bool)
  | truncate_columns (v : Bool)
  | force (v : Bool)
  | load_uncertain_files (v : Bool)
  | file_processor (v : String)
  | include_metadata (v : List (String × String))
deriving DecidableEq, Repr

/-- The builder field a setter call targets, as a tag. -/
def OptSetter.field : OptSetter → Nat
  | .return_failed_only _ => 0
  | .on_error _ => 1
  | .size_limit _ => 2
  | .purge _ => 3
  | .match_by_column_name _ => 4
  | .enforce_length _ => 5
  | .truncate_columns _ => 6
  | .force _ => 7
  | .load_uncertain_files _ => 8
  | .file_processor _ => 9
  | .include_metadata _ => 10

/-- Dispatch a setter call to the corresponding `with_*` method. -/
def CopyIntoOptionsBuilder.apply (b : CopyIntoOptionsBuilder) :
    OptSetter → CopyIntoOptionsBuilder
  | .return_failed_only v => b.with_return_failed_only v
  | .on_error v => b.with_on_error v
  | .size_limit v => b.with_size_limit v
  | .purge v => b.with_purge v
  | .match_by_column_name v => b.with_match_by_column_name v
  | .enforce_length v => b.with_enforce_length v
  | .truncate_columns v => b.with_truncate_columns v
  | .force v => b.with_force v
  | .load_uncertain_files v => b.with_load_uncertain_files v
  | .file_processor v => b.with_file_processor v
  | .include_metadata v => b.with_include_metadata v

theorem pyReplaceChar_eq_flatMap (old : Char) (new : List Char) (l : List Char) :
    pyReplaceChar old new l = l.flatMap (fun c => if c = old then new else [c]) := by
  induction l with
  | nil => rfl
  | cons c rest ih => simp [pyReplaceChar, ih, List.flatMap_cons]

theorem sql_escape_string_chars (s : String) :
    (sql_escape_string s).data =
      s.data.flatMap (fun c =>
        if c = bs ∨ c = sq ∨ c = dq then [c, c] else [c]) := by
  show (pyReplaceChar dq [dq, dq] (pyReplaceChar sq [sq, sq]
      (pyReplaceChar bs [bs, bs] s.data))) = _
  simp only [pyReplaceChar_eq_flatMap, List.flatMap_assoc]
  refine List.flatMap_congr (fun c _ => ?_)
  by_cases hb : c = bs
  · subst hb; decide
  · by_cases hs : c = sq
    · subst hs; decide
    · by_cases hd : c = dq
      · subst hd; decide
      · simp [hb, hs, hd]

theorem joinSep_cons (sep a : String) (l : List String) (h : l ≠ []) :
    joinSep sep (a :: l) = a ++ sep ++ joinSep sep l := by
  cases l with
  | nil => exact absurd rfl h
  | cons b r => rfl

theorem joinSep_prefix (sep a : String) (l : List String) (h : l ≠ []) :
    ∃ r, joinSep sep (a :: l) = a ++ r :=
  ⟨sep ++ joinSep sep l, by rw [joinSep_cons sep a l h, String.append_assoc]⟩

/-- C10: for any two Stream values that differ only in their `mode`,
`type` and/or `insert_only` fields, `to_sql` returns identical strings —
the three fields never influence the rendered SQL, so in particular an
insert-only stream emits no INSERT_ONLY clause. -/
theorem stream_mode_type_insert_only_never_rendered
    (s : Stream) (m : Option StreamMode) (ty : Option StreamType) (io : Bool) :
    Stream.to_sql { s with mode := m, type := ty, insert_only := io } =
      Stream.to_sql s := rfl

/-- C9: `Put.to_sql` renders `PUT 'file://<path>' <stage-reference>`, then
`PARALLEL = n` exactly when parallelism is set, `AUTO_COMPRESS = TRUE`
only when `auto_compress` is true, `SOURCE_COMPRESSION` always, and
`OVERWRITE = TRUE` only when `overwrite` is true; the stage reference
renders as `@%name` for a table stage, `@~/name` for a user stage and
`@name` for a named stage. -/
theorem put_to_sql_rendering (p : Put) :
    p.to_sql = joinSep " " p.parts
    ∧ p.parts =
        ["PUT", "'file://" ++ p.file_path ++ "'", p.stage.toStr]
        ++ (match p.parallel with
            | some n => ["PARALLEL = " ++ toString n]
            | none => [])
        ++ (if p.auto_compress then ["AUTO_COMPRESS = TRUE"] else [])
        ++ ["SOURCE_COMPRESSION = " ++ p.source_compression.value]
        ++ (if p.overwrite then ["OVERWRITE = TRUE"] else [])
    ∧ (∀ n : String,
        (InternalStage.table n).toStr = "@%" ++ n
        ∧ (InternalStage.user n).toStr = "@~/" ++ n
        ∧ (InternalStage.named n).toStr = "@" ++ n) :=
  ⟨rfl, by simp [Put.parts, ifTrue], fun n => ⟨rfl, rfl, rfl⟩⟩

/-- C3 counterexample: a stage target renders as the bare name, not with
the `@` sigil the claim asserts. -/
theorem copy_into_stage_target_renders_bare :
    (CopyIntoTarget.stage "X").to_sql = "X"
    ∧ (CopyIntoTarget.stage "X").to_sql ≠ "@X" :=
  ⟨rfl, by decide⟩

/-- C3 amended: only a stage source renders with the `@` sigil
(`CopyIntoSource.stage "X"` gives `@X`); a table source and both target
types render as the bare name. -/
theorem copy_into_sigil_rendering (n : String) :
    (CopyIntoSource.stage n).to_sql = "@" ++ n
    ∧ (CopyIntoSource.table n).to_sql = n
    ∧ (CopyIntoTarget.stage n).to_sql = n
    ∧ (CopyIntoTarget.table n).to_sql = n :=
  ⟨rfl, rfl, rfl, rfl⟩

/-- C4 counterexample: the scenario Table does not render to the string
the claim demands — the transient kind inserts a `TRANSIENT` keyword. -/
theorem c4_customers_not_claimed_string :
    c4_customers.to_sql ≠
      "CREATE TABLE customers (id NUMBER NOT NULL IDENTITY, email STRING) COMMENT = 'c'" := by
  decide

/-- C4 amended: the scenario Table renders exactly
`CREATE TRANSIENT TABLE customers (id NUMBER NOT NULL IDENTITY, email STRING) COMMENT = 'c'`
— identical to the claimed string except that the non-permanent table
kind is emitted between CREATE and TABLE. -/
theorem c4_customers_rendering :
    c4_customers.to_sql =
      "CREATE TRANSIENT TABLE customers (id NUMBER NOT NULL IDENTITY, email STRING) COMMENT = 'c'" :=
  rfl

/-- C5: `CopyIntoOptionsBuilder.build` discards the values of the
`with_load_uncertain_files`, `with_file_processor` and
`with_include_metadata` setters: applying them changes nothing about the
built options, and every built `CopyIntoOptions` has
`load_uncertain_files = false`, `file_processor = none` and
`include_metadata = none`, so these flags never reach the rendered SQL. -/
theorem builder_discards_uncertain_processor_metadata
    (b : CopyIntoOptionsBuilder) (v : Bool) (p : String)
    (m : List (String × String)) :
    (((b.with_load_uncertain_files v).with_file_processor p).with_include_metadata m).build
        = b.build
    ∧ b.build.load_uncertain_files = false
    ∧ b.build.file_processor = none
    ∧ b.build.include_metadata = none :=
  ⟨rfl, rfl, rfl, rfl⟩

/-- C6 counterexample: at input `a'b`, the comment-quoting variant does
not double the single quote — it backslash-escapes it, so the escaped
body differs from the quote-doubled body the claim describes. -/
theorem sql_quote_comment_not_doubling :
    (sql_escape_comment "a'b").data = [Char.ofNat 97, bs, sq, Char.ofNat 98]
    ∧ sql_escape_comment "a'b" ≠ doubleQuotes "a'b"
    ∧ sql_quote_comment "a'b" ≠
        String.singleton sq ++ doubleQuotes "a'b" ++ String.singleton sq := by
  refine ⟨by decide, by decide, by decide⟩

/-- C6 amended: for every string, the comment-quoting variant
(`sql_quote_comment`), when its surrounding single quotes are stripped,
escapes each `'` occurrence by prefixing a backslash (not by doubling),
leaving `"` and backslash unescaped. -/
theorem sql_quote_comment_backslash_escapes (s : String) :
    (sql_quote_comment s).data =
      sq :: ((s.data.flatMap fun c => if c = sq then [bs, sq] else [c]) ++ [sq]) := by
  show (String.singleton sq ++ sql_escape_comment s ++ String.singleton sq).data = _
  rw [String.data_append, String.data_append]
  show [sq] ++ (pyReplaceChar sq [bs, sq] s.data) ++ [sq] = _
  rw [pyReplaceChar_eq_flatMap]
  rfl

/-- C7: for every string containing a quote, double quote or backslash,
`sql_quote_string` is an opening single quote, then the string with each
occurrence of backslash, single quote and double quote doubled exactly
once per occurrence, then a closing single quote. -/
theorem sql_quote_string_doubles_specials (s : String)
    (_h : (s.data.any fun c => c == sq || c == dq || c == bs) = true) :
    (sql_quote_string s).data =
      sq :: ((s.data.flatMap fun c =>
        if c = bs ∨ c = sq ∨ c = dq then [c, c] else [c]) ++ [sq]) := by
  show (String.singleton sq ++ sql_escape_string s ++ String.singleton sq).data = _
  rw [String.data_append, String.data_append, sql_escape_string_chars]
  rfl

/-- C7 witness: the hypothesis and conclusion at the concrete input
`a'b`. -/
theorem sql_quote_string_doubles_specials_witness :
    ((("a'b" : String).data.any fun c => c == sq || c == dq || c == bs) = true)
    ∧ (sql_quote_string "a'b").data =
        sq :: ((("a'b" : String).data.flatMap fun c =>
          if c = bs ∨ c = sq ∨ c = dq then [c, c] else [c]) ++ [sq]) :=
  ⟨by decide, sql_quote_string_doubles_specials "a'b" (by decide)⟩

/-- C1: evaluated at a workflow of three steps whose second statement the
warehouse rejects, `WorkflowBuilder.execute` leaves the first step's
statement durably committed (the claim demands zero committed
statements), while a ROLLBACK is issued and the original error
propagates. The partial commit arises because `Forge.execute_sql` wraps
every single statement in its own `Forge.transaction` on the same
connection: Snowflake transactions do not nest, so the inner COMMIT
after step 1 commits the workflow's transaction. -/
theorem workflow_step_failure_partial_commit :
    (workflowExecute (fun s => s == "S2") ["S1", "S2", "S3"] {}).1.committed = ["S1"]
    ∧ (workflowExecute (fun s => s == "S2") ["S1", "S2", "S3"] {}).2 = some "S2"
    ∧ SqlCmd.ROLLBACK ∈ (workflowExecute (fun s => s == "S2") ["S1", "S2", "S3"] {}).1.sent :=
  ⟨rfl, rfl, by decide⟩

/-- C2 counterexample: a Table with both create-mode flags set renders
`CREATE OR REPLACE TABLE IF NOT EXISTS ...` — the statement does contain
an IF NOT EXISTS clause, contradicting the claim that or-replace
suppresses it for every entity. -/
theorem c2_table_renders_both_clauses :
    c2_table.to_sql = "CREATE OR REPLACE TABLE IF NOT EXISTS t (c NUMBER)"
    ∧ "IF NOT EXISTS" ∈ c2_table.parts :=
  ⟨rfl, by decide⟩

/-- C2 amended: with both create-mode flags set, every entity's statement
begins with `CREATE OR REPLACE`, but only Task resolves the conflict in
favour of or-replace (its rendering is unchanged by clearing the
if-not-exists flag); Table, Stage, FileFormat and Stream still emit the
`IF NOT EXISTS` clause alongside. -/
theorem create_mode_or_replace_resolution :
    (∀ t : Table, t.is_create_or_replace = true → t.is_create_if_not_exists = true →
      (∃ r, t.to_sql = "CREATE OR REPLACE" ++ r) ∧ "IF NOT EXISTS" ∈ t.parts)
    ∧ (∀ s : Stage, s.is_create_or_replace = true → s.is_create_if_not_exists = true →
      (∃ r, s.to_sql = "CREATE OR REPLACE" ++ r) ∧ "IF NOT EXISTS" ∈ s.parts)
    ∧ (∀ b : FileFormatBuilder,
        b._create_or_replace = true → b._create_if_not_exists = true →
      (∃ r, (b.build).sql_statement = "CREATE OR REPLACE" ++ r)
      ∧ "IF NOT EXISTS" ∈ b.parts)
    ∧ (∀ s : Stream, s.is_create_or_replace = true → s.is_create_if_not_exists = true →
      (∃ r, s.to_sql = "CREATE OR REPLACE" ++ r) ∧ "IF NOT EXISTS" ∈ s.parts)
    ∧ (∀ t : Task, t.is_create_or_replace = true → t.is_create_if_not_exists = true →
      (∃ r, t.to_sql = "CREATE OR REPLACE" ++ r)
      ∧ Task.to_sql { t with is_create_if_not_exists := false } = t.to_sql) := by
  refine ⟨?_, ?_, ?_, ?_, ?_⟩
  · intro t h1 h2
    have hsh : t.parts = "CREATE OR REPLACE" :: t.parts.tail := by
      simp [Table.parts, h1]
    have hmem : "TABLE" ∈ t.parts.tail := by
      simp [Table.parts, h1]
    refine ⟨?_, by simp [Table.parts, h1, h2, ifTrue]⟩
    show ∃ r, joinSep " " t.parts = "CREATE OR REPLACE" ++ r
    rw [hsh]
    exact joinSep_prefix " " _ _ (List.ne_nil_of_mem hmem)
  · intro s h1 h2
    have hsh : s.parts = "CREATE OR REPLACE" :: s.parts.tail := by
      simp [Stage.parts, h1]
    have hmem : "STAGE" ∈ s.parts.tail := by
      simp [Stage.parts, h1]
    refine ⟨?_, by simp [Stage.parts, h1, h2, ifTrue]⟩
    show ∃ r, joinSep " " s.parts = "CREATE OR REPLACE" ++ r
    rw [hsh]
    exact joinSep_prefix " " _ _ (List.ne_nil_of_mem hmem)
  · intro b h1 h2
    have hsh : b.parts = "CREATE OR REPLACE" :: b.parts.tail := by
      simp [FileFormatBuilder.parts, h1]
    have hmem : "FILE FORMAT" ∈ b.parts.tail := by
      simp [FileFormatBuilder.parts, h1]
    refine ⟨?_, by simp [FileFormatBuilder.parts, h1, h2, ifTrue]⟩
    show ∃ r, joinSep " " b.parts = "CREATE OR REPLACE" ++ r
    rw [hsh]
    exact joinSep_prefix " " _ _ (List.ne_nil_of_mem hmem)
  · intro s h1 h2
    have hsh : s.parts = "CREATE OR REPLACE" :: s.parts.tail := by
      simp [Stream.parts, h1]
    have hmem : "STREAM" ∈ s.parts.tail := by
      simp [Stream.parts, h1]
    refine ⟨?_, by simp [Stream.parts, h1, h2, ifTrue]⟩
    show ∃ r, joinSep " " s.parts = "CREATE OR REPLACE" ++ r
    rw [hsh]
    exact joinSep_prefix " " _ _ (List.ne_nil_of_mem hmem)
  · intro t h1 h2
    have hsh : t.parts = "CREATE OR REPLACE" :: t.parts.tail := by
      simp [Task.parts, h1]
    have hmem : "AS" ∈ t.parts.tail := by
      simp [Task.parts, h1]
    refine ⟨?_, by simp [Task.to_sql, Task.parts, h1]⟩
    show ∃ r, joinSep "\n" t.parts = "CREATE OR REPLACE" ++ r
    rw [hsh]
    exact joinSep_prefix "\n" _ _ (List.ne_nil_of_mem hmem)

/-- C2 witness: the amended resolution instantiated at the concrete Table
with both flags set. -/
theorem create_mode_or_replace_resolution_witness :
    (∃ r, c2_table.to_sql = "CREATE OR REPLACE" ++ r)
    ∧ "IF NOT EXISTS" ∈ c2_table.parts :=
  create_mode_or_replace_resolution.1 c2_table rfl rfl

theorem CopyIntoOptions.parts_on_error_before_purge (o : CopyIntoOptions)
    (e : OnError) (h1 : o.on_error = some e) (h2 : o.purge = true) :
    ∃ l1 l2 l3, o.parts =
      l1 ++ ("ON_ERROR = " ++ e.value) :: (l2 ++ "PURGE = TRUE" :: l3) := by
  refine ⟨ifTrue o.return_failed_only "RETURN_FAILED_ONLY = TRUE",
    (match o.size_limit with
     | some n => if n = 0 then [] else ["SIZE_LIMIT = " ++ toString n]
     | none => []),
    (match o.match_by_column_name with
     | some m => ["MATCH_BY_COLUMN_NAME = " ++ m.value]
     | none => [])
    ++ ifTrue o.enforce_length "ENFORCE_LENGTH = TRUE"
    ++ ifTrue o.truncate_columns "TRUNCATECOLUMNS = TRUE"
    ++ ifTrue o.force "FORCE = TRUE"
    ++ ifTrue o.load_uncertain_files "LOAD_UNCERTAIN_FILES = TRUE"
    ++ ifStr o.file_processor (fun p => "FILE_PROCESSOR = (" ++ p ++ ")")
    ++ ifDict o.include_metadata
        (fun m => "INCLUDE_METADATA = (" ++ pyDictRepr m ++ ")"), ?_⟩
  simp [CopyIntoOptions.parts, h1, h2, ifTrue]

/-- C8: for every CopyInto, `to_sql` emits `COPY INTO <target> FROM
<source>` first, then — each only if present — PATTERN, FILE_FORMAT
(parenthesized), the FILES list and VALIDATION_MODE, in that fixed
order; the options' flags are emitted in the fixed order
RETURN_FAILED_ONLY, ON_ERROR, SIZE_LIMIT, PURGE, MATCH_BY_COLUMN_NAME,
ENFORCE_LENGTH, TRUNCATECOLUMNS, FORCE (then the remaining extras), each
only if present; the rendering depends only on the built field values —
any two options-builder setter calls targeting distinct fields commute,
so the order in which setters were called is irrelevant; and in
particular, options with an on-error mode and the purge flag place
`ON_ERROR = ...` strictly before `PURGE = TRUE`. -/
theorem copy_into_clause_order (c : CopyInto) :
    c.to_sql = joinSep " " c.parts
    ∧ c.parts =
        ["COPY INTO", c.target.to_sql, "FROM", c.source.to_sql]
        ++ (match c.pattern with
            | none => []
            | some p => if p = "" then [] else ["PATTERN = '" ++ p ++ "'"])
        ++ (match c.file_format with
            | some f => ["FILE_FORMAT = (" ++ f.to_sql ++ ")"]
            | none => [])
        ++ (match c.files with
            | some fs =>
                if fs = [] then []
                else ["FILES = (" ++
                  joinSep ", " (fs.map fun f => "'" ++ f ++ "'") ++ ")"]
            | none => [])
        ++ (match c.validation_mode with
            | some v => ["VALIDATION_MODE = " ++ v.value]
            | none => [])
        ++ (if c.options.to_sql = "" then [] else [c.options.to_sql])
    ∧ c.options.to_sql = joinSep " " c.options.parts
    ∧ c.options.parts =
        (if c.options.return_failed_only then ["RETURN_FAILED_ONLY = TRUE"] else [])
        ++ (match c.options.on_error with
            | some e => ["ON_ERROR = " ++ e.value]
            | none => [])
        ++ (match c.options.size_limit with
            | some n => if n = 0 then [] else ["SIZE_LIMIT = " ++ toString n]
            | none => [])
        ++ (if c.options.purge then ["PURGE = TRUE"] else [])
        ++ (match c.options.match_by_column_name with
            | some m => ["MATCH_BY_COLUMN_NAME = " ++ m.value]
            | none => [])
        ++ (if c.options.enforce_length then ["ENFORCE_LENGTH = TRUE"] else [])
        ++ (if c.options.truncate_columns then ["TRUNCATECOLUMNS = TRUE"] else [])
        ++ (if c.options.force then ["FORCE = TRUE"] else [])
        ++ (if c.options.load_uncertain_files then ["LOAD_UNCERTAIN_FILES = TRUE"] else [])
        ++ (match c.options.file_processor with
            | none => []
            | some p => if p = "" then [] else ["FILE_PROCESSOR = (" ++ p ++ ")"])
        ++ (match c.options.include_metadata with
            | none => []
            | some m =>
                if m = [] then []
                else ["INCLUDE_METADATA = (" ++ pyDictRepr m ++ ")"])
    ∧ (∃ r, c.to_sql = "COPY INTO" ++ r)
    ∧ (∀ e : OnError, c.options.on_error = some e → c.options.purge = true →
        ∃ l1 l2 l3, c.options.parts =
          l1 ++ ("ON_ERROR = " ++ e.value) :: (l2 ++ "PURGE = TRUE" :: l3))
    ∧ (∀ (b : CopyIntoOptionsBuilder) (s1 s2 : OptSetter),
        s1.field ≠ s2.field →
        (b.apply s1).apply s2 = (b.apply s2).apply s1) := by
  refine ⟨rfl, by simp [CopyInto.parts, ifStr], rfl,
    by simp [CopyIntoOptions.parts, ifTrue, ifStr, ifDict], ?_,
    fun e h1 h2 => CopyIntoOptions.parts_on_error_before_purge c.options e h1 h2,
    fun b s1 s2 h => by
      cases s1 <;> cases s2 <;> first | rfl | exact absurd rfl h⟩
  have hsh : c.parts = "COPY INTO" :: c.parts.tail := by simp [CopyInto.parts]
  have hmem : "FROM" ∈ c.parts.tail := by simp [CopyInto.parts]
  show ∃ r, joinSep " " c.parts = "COPY INTO" ++ r
  rw [hsh]
  exact joinSep_prefix " " _ _ (List.ne_nil_of_mem hmem)

/-- C8 witness: the inner on-error/purge ordering conjunct discharged at
the concrete scenario CopyInto (on-error SKIP_FILE, purge set). -/
theorem copy_into_clause_order_witness :
    ∃ l1 l2 l3, c8_copy.options.parts =
      l1 ++ ("ON_ERROR = " ++ OnError.SKIP_FILE.value) ::
        (l2 ++ "PURGE = TRUE" :: l3) :=
  (copy_into_clause_order c8_copy).2.2.2.2.2.1 OnError.SKIP_FILE rfl rfl

end Snowforge
